import Mathlib

/-!
Shallow embedding of the TriVita backend's notification subsystem:
the notification state store (`app/db/notification_state.py`), the
schedule builder and scheduler jobs (`app/scheduler/notification_scheduler.py`),
the FCM delivery gateway (`app/services/fcm_service.py`), the payload
templates (`app/services/notification_templates.py`) and the quick-log /
ack action handler (`app/routes/notifications.py`).

Modelling conventions:
* instants are integers counting minutes (UTC); a calendar date is carried
  both as its `YYYY-MM-DD` string (the Mongo partition key) and as the
  integer instant of its local-midnight-in-UTC used by time arithmetic;
* MongoDB's `notification_states` collection is an association list keyed
  by the compound unique index (firebase_uid, date, slot_label);
* Python exceptions that escape a function are `Except.error`;
* the pytz timezone database is a parameter `tzdb : String → Option Int`
  giving each known zone's UTC offset in minutes for the relevant date;
  an unknown zone returns `Option.none` (pytz raises UnknownTimeZoneError);
* outbound FCM calls are a parameter `send : token → data → FCMResult`,
  and the firebase-admin SDK outcome feeding `send_data_message` is the
  inductive `SdkOutcome`;
* MongoDB rejects an update document whose `$set` and `$setOnInsert` share
  a field path (ConflictingUpdateOperators, code 40), whether the
  operation matches or inserts; `upsert_state` therefore returns `Except`,
  erroring exactly when a kwarg repeats a `$setOnInsert` path, and the
  seeding job and cycle engine propagate that exception as the awaited
  Python call would.
-/

/-- Status enum of a notification state document
(`status: pending|sent|reminded_15|reminded_30|resolved|expired`). -/
inductive Status where
  | pending
  | sent
  | reminded15
  | reminded30
  | resolved
  | expired
deriving DecidableEq, Repr

/-- Compound unique key of a notification state document:
(firebase_uid, date "YYYY-MM-DD", slot_label). -/
structure Key where
  uid : String
  date : String
  slotLabel : String
deriving DecidableEq, Repr

/-- Mutable fields of a notification state document (everything except the
compound key). -/
structure Rec where
  notificationType : String
  scheduledUtc : Int
  status : Status
  sentAt : Option Int
  reminded15At : Option Int
  reminded30At : Option Int
  resolvedAt : Option Int
  actionTaken : Option String
deriving DecidableEq, Repr

/-- The `notification_states` collection: at most one record per compound
key (the collection carries a unique index on the key triple). -/
abbrev Store : Type := List (Key × Rec)

deriving instance DecidableEq for Except

/-- Membership of a compound key in the collection. -/
def containsKey (k : Key) (store : Store) : Bool :=
  store.any (fun p => p.1 = k)

/-- Model of `find_one` on the compound key. -/
def findRec (k : Key) (store : Store) : Option Rec :=
  (store.find? (fun p => p.1 = k)).map (fun p => p.2)

/-- Optional keyword timestamp passed through `upsert_state`'s `**kwargs`
into its `$set` document (the scheduler passes at most one of
`sent_at` / `reminded_15_at` / `reminded_30_at` per call). -/
inductive StampKW where
  | noStamp
  | sentAt (t : Int)
  | reminded15At (t : Int)
  | reminded30At (t : Int)
deriving DecidableEq, Repr

/-- Effect of `upsert_state`'s `$set` document on an existing record:
`notification_type`, `scheduled_utc` and `status` are always written, plus
whichever stage timestamp was passed through `kwargs`. -/
def applySet (ntype : String) (sched : Int) (status : Status) (kw : StampKW)
    (r : Rec) : Rec :=
  let base := { r with notificationType := ntype, scheduledUtc := sched,
                       status := status }
  match kw with
  | .noStamp => base
  | .sentAt t => { base with sentAt := some t }
  | .reminded15At t => { base with reminded15At := some t }
  | .reminded30At t => { base with reminded30At := some t }

/-- Document created when `upsert_state` inserts: the `$setOnInsert` fields
(all stage timestamps, `resolved_at`, `action_taken` unset) merged with the
`$set` fields.  An insert can only actually happen for kwarg-free calls,
because a stamped call is rejected by MongoDB before any match or insert
(see `updateConflicts`). -/
def insertDoc (ntype : String) (sched : Int) (status : Status) (kw : StampKW) :
    Rec :=
  applySet ntype sched status kw
    { notificationType := ntype, scheduledUtc := sched, status := status,
      sentAt := none, reminded15At := none, reminded30At := none,
      resolvedAt := none, actionTaken := none }

/-- Field paths of `upsert_state`'s `$setOnInsert` document. -/
def SET_ON_INSERT_KEYS : List String :=
  ["firebase_uid", "date", "slot_label", "sent_at", "reminded_15_at",
   "reminded_30_at", "resolved_at", "action_taken"]

/-- Field paths of `upsert_state`'s `$set` document
(`notification_type`, `scheduled_utc`, `status`, plus the kwargs). -/
def setKeys : StampKW → List String
  | .noStamp => ["notification_type", "scheduled_utc", "status"]
  | .sentAt _ => ["notification_type", "scheduled_utc", "status", "sent_at"]
  | .reminded15At _ =>
    ["notification_type", "scheduled_utc", "status", "reminded_15_at"]
  | .reminded30At _ =>
    ["notification_type", "scheduled_utc", "status", "reminded_30_at"]

/-- MongoDB rejects any update document in which the same field path
appears under two update operators — including `$set` + `$setOnInsert` —
with a ConflictingUpdateOperators write error (code 40, "Updating the path
'sent_at' would create a conflict at 'sent_at'").  The check is made when
the update document is parsed, whether the operation matches or inserts.
`upsert_state` always repeats the stage-timestamp paths in `$setOnInsert`,
so every call passing a stamp kwarg conflicts. -/
def updateConflicts (kw : StampKW) : Bool :=
  (setKeys kw).any (fun f => SET_ON_INSERT_KEYS.contains f)

/-- The write `upsert_state` would perform when MongoDB accepts the update
document: `$set` applied to a matched record, or the merged insert
document when the key is absent. -/
def upsertWrite (k : Key) (ntype : String) (sched : Int) (status : Status)
    (kw : StampKW) (store : Store) : Store :=
  if containsKey k store then
    store.map (fun p => if p.1 = k then (p.1, applySet ntype sched status kw p.2) else p)
  else
    store ++ [(k, insertDoc ntype sched status kw)]

/-- Model of `upsert_state` (`app/db/notification_state.py:51`):
`update_one` with `upsert=True`, `$set` on kind/instant/status (+ kwargs)
and `$setOnInsert` for the identity and unset timestamp fields.  When a
kwarg repeats a `$setOnInsert` path — which every stage-timestamp kwarg
does — MongoDB rejects the update with ConflictingUpdateOperators and the
awaited call raises, persisting nothing; only the kwarg-free call shape
performs the write. -/
def upsert_state (k : Key) (ntype : String) (sched : Int) (status : Status)
    (kw : StampKW) (store : Store) : Except Unit Store :=
  if updateConflicts kw then .error ()
  else .ok (upsertWrite k ntype sched status kw store)

lemma upsert_state_noStamp (k : Key) (ntype : String) (sched : Int)
    (status : Status) (store : Store) :
    upsert_state k ntype sched status .noStamp store =
      .ok (upsertWrite k ntype sched status .noStamp store) := rfl

lemma upsert_state_sentAt (k : Key) (ntype : String) (sched : Int)
    (status : Status) (t : Int) (store : Store) :
    upsert_state k ntype sched status (.sentAt t) store = .error () := rfl

lemma upsert_state_reminded15At (k : Key) (ntype : String) (sched : Int)
    (status : Status) (t : Int) (store : Store) :
    upsert_state k ntype sched status (.reminded15At t) store = .error () := rfl

lemma upsert_state_reminded30At (k : Key) (ntype : String) (sched : Int)
    (status : Status) (t : Int) (store : Store) :
    upsert_state k ntype sched status (.reminded30At t) store = .error () := rfl

/-- The `$set` document of `mark_resolved` applied to a matched record. -/
def resolveSet (actionTaken : String) (now : Int) (r : Rec) : Rec :=
  { r with status := .resolved, resolvedAt := some now,
           actionTaken := some actionTaken }

/-- Model of `mark_resolved` (`app/db/notification_state.py:100`):
`update_one` (no upsert) setting status `resolved`, `resolved_at = now`,
`action_taken`; a missing key is a silent no-op. -/
def mark_resolved (k : Key) (actionTaken : String) (now : Int) (store : Store) :
    Store :=
  store.map (fun p =>
    if p.1 = k then (p.1, resolveSet actionTaken now p.2) else p)

/-- The `$set` document of `update_scheduled_utc` applied to a matched
record: new instant, new status, the three stage timestamps cleared;
`resolved_at` and `action_taken` are not touched. -/
def snoozeSet (newScheduledUtc : Int) (newStatus : Status) (r : Rec) : Rec :=
  { r with scheduledUtc := newScheduledUtc, status := newStatus,
           sentAt := none, reminded15At := none, reminded30At := none }

/-- Model of `update_scheduled_utc` (`app/db/notification_state.py:119`):
`update_one` (no upsert) overwriting the scheduled instant, setting the
given status (the caller always passes `pending`) and clearing
`sent_at` / `reminded_15_at` / `reminded_30_at`. -/
def update_scheduled_utc (k : Key) (newScheduledUtc : Int) (newStatus : Status)
    (store : Store) : Store :=
  store.map (fun p =>
    if p.1 = k then (p.1, snoozeSet newScheduledUtc newStatus p.2) else p)

/-- Model of `get_all_pending_states` (`app/db/notification_state.py:142`):
all documents of the given date whose status is neither `resolved` nor
`expired` (the 5000-document cursor cap is not modelled). -/
def get_all_pending_states (date : String) (store : Store) : List (Key × Rec) :=
  store.filter (fun p =>
    p.1.date = date ∧ p.2.status ≠ .resolved ∧ p.2.status ≠ .expired)

/-!  Schedule builder (`app/scheduler/notification_scheduler.py`). -/

/-- Numeric value of a digit string, as a character-list fold. -/
def digitsVal (cs : List Char) : Nat :=
  cs.foldl (fun a c => 10 * a + (c.toNat - 48)) 0

/-- Model of `datetime.strptime(..., "%H:%M")` applied to the time part of
the seeded string: one or two digits of hour, a colon, one or two digits of
minute, hour ≤ 23 and minute ≤ 59; anything else raises (returns none). -/
def parseHHMM (s : String) : Option (Nat × Nat) :=
  match s.toList.splitOn ':' with
  | [h, m] =>
    if h.length = 0 ∨ 2 < h.length ∨ m.length = 0 ∨ 2 < m.length then none
    else if ¬ (h.all Char.isDigit ∧ m.all Char.isDigit) then none
    else
      if digitsVal h ≤ 23 ∧ digitsVal m ≤ 59 then
        some (digitsVal h, digitsVal m)
      else none
  | _ => none

/-- Model of `_parse_local_time` (`notification_scheduler.py:60`):
resolve the timezone, falling back to UTC when pytz raises
UnknownTimeZoneError, then strptime the "HH:MM" string (a ValueError from
strptime propagates to the caller, hence `Except`), and convert the local
wall time on the given date to a UTC instant.  `dateVal` is the UTC instant
of the date's midnight as used by the strptime composition. -/
def _parse_local_time (tzdb : String → Option Int) (timeStr : String)
    (dateVal : Int) (tzName : String) : Except Unit Int :=
  let offset : Int := (tzdb tzName).getD 0
  match parseHHMM timeStr with
  | none => .error ()
  | some hm => .ok (dateVal + 60 * (hm.1 : Int) + (hm.2 : Int) - offset)

/-- Read-only snapshot of a user's notification preferences after the
`{**DEFAULT_PREFS, **user_doc["notification_prefs"]}` merge in
`_build_schedule`.  A time field models the merged dict value; the empty
string stands for a Python-falsy value (`None` or `""`), which the builder
treats as an absent time. -/
structure NotificationPrefs where
  timezone : String
  globalEnabled : Bool
  sleepEnabled : Bool
  nutritionEnabled : Bool
  hydrationEnabled : Bool
  wakeTime : String
  bedtimeTime : String
  breakfastTime : String
  midMorningTime : String
  lunchTime : String
  afternoonBreakTime : String
  dinnerTime : String
  postDinnerTime : String
  hydration1Time : String
  hydration2Time : String
  hydration3Time : String
  hydration4Time : String
  hydration5Time : String
  hydration6Time : String
  hydration7Time : String
  hydration8Time : String
deriving DecidableEq, Repr

/-- The `DEFAULT_PREFS` dict of `notification_scheduler.py:30`. -/
def DEFAULT_PREFS : NotificationPrefs :=
  { timezone := "Asia/Kolkata"
    globalEnabled := true
    sleepEnabled := true
    nutritionEnabled := true
    hydrationEnabled := true
    wakeTime := "07:00"
    bedtimeTime := "22:30"
    breakfastTime := "08:00"
    midMorningTime := "10:30"
    lunchTime := "13:00"
    afternoonBreakTime := "16:00"
    dinnerTime := "19:30"
    postDinnerTime := "21:00"
    hydration1Time := "08:45"
    hydration2Time := "10:30"
    hydration3Time := "12:15"
    hydration4Time := "14:00"
    hydration5Time := "15:45"
    hydration6Time := "17:30"
    hydration7Time := "19:15"
    hydration8Time := "21:00" }

/-- One entry of the slot list returned by `_build_schedule`:
`{slot_label, notification_type, scheduled_utc}`. -/
structure Slot where
  slotLabel : String
  notificationType : String
  scheduledUtc : Int
deriving DecidableEq, Repr

/-- The (slot_label, notification_type, time string) candidates the builder
iterates over, in source order: sleep (2), nutrition (6), hydration (8),
each category gated by its enable flag. -/
def slotCandidates (prefs : NotificationPrefs) : List (String × String × String) :=
  (if prefs.sleepEnabled then
    [("wake", "wake", prefs.wakeTime),
     ("bedtime", "bedtime", prefs.bedtimeTime)]
   else []) ++
  (if prefs.nutritionEnabled then
    [("breakfast", "breakfast", prefs.breakfastTime),
     ("mid_morning", "mid_morning", prefs.midMorningTime),
     ("lunch", "lunch", prefs.lunchTime),
     ("afternoon_break", "afternoon_break", prefs.afternoonBreakTime),
     ("dinner", "dinner", prefs.dinnerTime),
     ("post_dinner", "post_dinner", prefs.postDinnerTime)]
   else []) ++
  (if prefs.hydrationEnabled then
    [("hydration_1", "hydration", prefs.hydration1Time),
     ("hydration_2", "hydration", prefs.hydration2Time),
     ("hydration_3", "hydration", prefs.hydration3Time),
     ("hydration_4", "hydration", prefs.hydration4Time),
     ("hydration_5", "hydration", prefs.hydration5Time),
     ("hydration_6", "hydration", prefs.hydration6Time),
     ("hydration_7", "hydration", prefs.hydration7Time),
     ("hydration_8", "hydration", prefs.hydration8Time)]
   else [])

/-- Loop body of `_build_schedule` over the candidate slots: a falsy time
string skips the slot, a parse failure raises out of the whole builder,
and with `skip_past` a computed instant before `now` drops the slot. -/
def buildSlots (tzdb : String → Option Int) (tzName : String) (dateVal : Int)
    (skipPast : Bool) (now : Int) :
    List (String × String × String) → Except Unit (List Slot)
  | [] => .ok []
  | (lbl, ty, t) :: rest =>
    if t = "" then buildSlots tzdb tzName dateVal skipPast now rest
    else
      match _parse_local_time tzdb t dateVal tzName with
      | .error e => .error e
      | .ok utc =>
        match buildSlots tzdb tzName dateVal skipPast now rest with
        | .error e => .error e
        | .ok tail =>
          if skipPast = false ∨ now ≤ utc then
            .ok ({ slotLabel := lbl, notificationType := ty,
                   scheduledUtc := utc } :: tail)
          else .ok tail

/-- Model of `_build_schedule` (`notification_scheduler.py:76`): empty when
the global killswitch is off, otherwise the candidate slots of the enabled
categories, each localized through `_parse_local_time` and optionally
filtered against `now` when `skip_past` is set.  `now` models the
`datetime.now(timezone.utc)` the Python function reads internally. -/
def _build_schedule (tzdb : String → Option Int) (prefs : NotificationPrefs)
    (dateVal : Int) (skipPast : Bool) (now : Int) : Except Unit (List Slot) :=
  if prefs.globalEnabled = false then .ok []
  else buildSlots tzdb prefs.timezone dateVal skipPast now (slotCandidates prefs)

/-- Small concrete timezone database for witnesses and counterexamples:
offsets in minutes east of UTC. -/
def tzdbTest : String → Option Int := fun s =>
  if s = "Asia/Kolkata" then some 330
  else if s = "UTC" then some 0
  else none

example :
    _parse_local_time tzdbTest "08:45" 0 "Asia/Kolkata" = .ok 195 := by decide

/-!  Delivery gateway (`app/services/fcm_service.py`). -/

/-- Result dataclass of the FCM service (`FCMResult`). -/
structure FCMResult where
  success : Bool
  messageId : Option String
  error : Option String
deriving DecidableEq, Repr

/-- Outcome of the one `messaging.send` call inside `send_data_message`,
as raised by the firebase-admin SDK. -/
inductive SdkOutcome where
  | ok (messageId : String)
  | unregisteredError
  | senderIdMismatchError
  | otherError (msg : String)
deriving DecidableEq, Repr

/-- Char-list test that `needle` starts the list `hay`. -/
def needleLeads : List Char → List Char → Bool
  | [], _ => true
  | _ :: _, [] => false
  | a :: as, b :: bs => a = b && needleLeads as bs

/-- Char-list substring occurrence test. -/
def charsHasSub (needle hay : List Char) : Bool :=
  match hay with
  | [] => needle.isEmpty
  | _ :: tl => needleLeads needle hay || charsHasSub needle tl

/-- Model of Python's `needle in hay` on strings. -/
def strContains (hay needle : String) : Bool :=
  charsHasSub needle.toList hay.toList

/-- Model of Python's `str.lower()` (ASCII case folding suffices here). -/
def pyLower (s : String) : String :=
  ⟨s.toList.map Char.toLower⟩

/-- Model of `send_data_message` (`app/services/fcm_service.py:32`)
restricted to its failure classification: `UnregisteredError` maps to
`token_unregistered`, `SenderIdMismatchError` to `sender_id_mismatch`, any
other exception whose lowercase message mentions "registration token" or
"invalid" is also classified `token_unregistered`, and everything else is
a transient failure carrying the message. -/
def send_data_message : SdkOutcome → FCMResult
  | .ok mid => { success := true, messageId := some mid, error := none }
  | .unregisteredError =>
    { success := false, messageId := none, error := some "token_unregistered" }
  | .senderIdMismatchError =>
    { success := false, messageId := none, error := some "sender_id_mismatch" }
  | .otherError msg =>
    if strContains (pyLower msg) "registration token" ||
       strContains (pyLower msg) "invalid" then
      { success := false, messageId := none, error := some "token_unregistered" }
    else
      { success := false, messageId := none, error := some msg }

/-!  Notification templates (`app/services/notification_templates.py`). -/

/-- The `NotificationTemplate` dataclass; `actions` always defaults to the
unified 3-action list in `__post_init__`. -/
structure NotificationTemplate where
  notificationType : String
  title : String
  body : String
  emoji : String
  actions : List String
deriving DecidableEq, Repr

/-- Template constructor matching the dataclass defaults. -/
def mkTemplate (ty title body emoji : String) : NotificationTemplate :=
  { notificationType := ty, title := title, body := body, emoji := emoji,
    actions := ["yes", "need_15_min", "need_30_min"] }

/-- The hydration template (shared by the eight hydration slots and used as
the registry's fallback). -/
def hydrationTemplate : NotificationTemplate :=
  mkTemplate "hydration" "Hydration check 💧"
    "Time to drink 250 ml of water! Tap Yes to log it." "💧"

/-- The 9-entry template registry `TEMPLATES` (16 slots share 9 types). -/
def TEMPLATES : List (String × NotificationTemplate) :=
  [("wake", mkTemplate "wake" "Good morning! ☀️"
      "Time to rise! Tap Yes to log your wake time." "☀️"),
   ("bedtime", mkTemplate "bedtime" "Bedtime 🌙"
      "Heading to bed? Tap Yes to log your sleep." "🌙"),
   ("breakfast", mkTemplate "breakfast" "Breakfast time 🍳"
      "Start your day right — tap Yes to log breakfast." "🍳"),
   ("mid_morning", mkTemplate "mid_morning" "Mid-morning snack 🍎"
      "Mid-morning bite? Tap Yes to log it." "🍎"),
   ("lunch", mkTemplate "lunch" "Lunch time 🥗"
      "Midday refuel — tap Yes to log your lunch." "🥗"),
   ("afternoon_break", mkTemplate "afternoon_break" "Afternoon snack 🍪"
      "Afternoon snack time! Tap Yes to log it." "🍪"),
   ("dinner", mkTemplate "dinner" "Dinner time 🍽️"
      "Evening meal — tap Yes to log your dinner." "🍽️"),
   ("post_dinner", mkTemplate "post_dinner" "Post-dinner 🍵"
      "After-dinner snack or tea? Tap Yes to log it." "🍵"),
   ("hydration", hydrationTemplate)]

/-- Model of `get_template`: registry lookup defaulting to hydration. -/
def get_template (notificationType : String) : NotificationTemplate :=
  ((TEMPLATES.find? (fun p => p.1 = notificationType)).map (fun p => p.2)).getD
    hydrationTemplate

/-- Model of `NotificationTemplate.to_fcm_data`: the flat string-keyed FCM
payload. -/
def to_fcm_data (tpl : NotificationTemplate) (uid slotLabel date : String)
    (isReminder : Bool) (reminderCount : Nat) : List (String × String) :=
  [("notification_type", tpl.notificationType),
   ("slot_label", slotLabel),
   ("date", date),
   ("uid", uid),
   ("title", (if isReminder then "⏰ Reminder: " else "") ++ tpl.title),
   ("body", tpl.body),
   ("actions", String.intercalate "," tpl.actions),
   ("is_reminder", if isReminder then "true" else "false"),
   ("reminder_count", toString reminderCount),
   ("emoji", tpl.emoji)]

/-!  Cycle engine (`app/scheduler/notification_scheduler.py:202`). -/

/-- The hard-coded `settings.REMINDER_15_MINUTES` of `app/core/config.py`
(the single reminder interval used for all three thresholds). -/
def REMINDER_15_MINUTES : Int := 15

/-- Aggregate counters returned by `run_notification_cycle`. -/
structure Stats where
  sent : Nat
  reminded15 : Nat
  reminded30 : Nat
  expired : Nat
  skipped : Nat
deriving DecidableEq, Repr

/-- All-zero counters the cycle starts from. -/
def initStats : Stats := { sent := 0, reminded15 := 0, reminded30 := 0,
                           expired := 0, skipped := 0 }

/-- Mutable state threaded through one cycle pass: the state store, the
`stale_uids` set, the uids whose token the cycle asked the users collection
to `$unset` (`_clear_token`), and the counters. -/
structure CycleState where
  store : Store
  staleUids : List String
  cleared : List String
  stats : Stats
deriving DecidableEq, Repr

/-- Loop body of `run_notification_cycle` for one snapshot document `kr`:
skip when the user has no token or was already marked stale this cycle,
otherwise evaluate the single eligible threshold for the snapshot's status,
invoke the gateway when a delivery is due, and persist the transition via
`upsert_state` only when delivery succeeded (`reminded_30 → expired` sends
nothing).  A `token_unregistered` failure on the initial send marks the uid
stale and requests token removal; any other failure changes nothing.  The
awaited `upsert_state` can raise (stage-timestamp kwargs conflict with
`$setOnInsert`); the exception propagates out of the loop body. -/
def processState (send : String → List (String × String) → FCMResult)
    (tokenMap : String → String) (interval : Int) (now : Int) (dateStr : String)
    (cs : CycleState) (kr : Key × Rec) : Except Unit CycleState :=
  let uid := kr.1.uid
  let token := tokenMap uid
  let doc := kr.2
  if token = "" ∨ uid ∈ cs.staleUids then
    .ok { cs with stats := { cs.stats with skipped := cs.stats.skipped + 1 } }
  else
    let template := get_template doc.notificationType
    if doc.status = .pending ∧ doc.scheduledUtc ≤ now then
      let result := send token (to_fcm_data template uid kr.1.slotLabel dateStr false 0)
      if result.success then
        match upsert_state kr.1 doc.notificationType doc.scheduledUtc
            .sent (.sentAt now) cs.store with
        | .error e => .error e
        | .ok st' =>
          .ok { cs with store := st',
                        stats := { cs.stats with sent := cs.stats.sent + 1 } }
      else if result.error = some "token_unregistered" then
        .ok { cs with staleUids := uid :: cs.staleUids,
                      cleared := uid :: cs.cleared }
      else .ok cs
    else if doc.status = .sent then
      match doc.sentAt with
      | none => .ok cs
      | some sentAt =>
        if sentAt + interval ≤ now then
          let result := send token (to_fcm_data template uid kr.1.slotLabel dateStr true 1)
          if result.success then
            match upsert_state kr.1 doc.notificationType doc.scheduledUtc
                .reminded15 (.reminded15At now) cs.store with
            | .error e => .error e
            | .ok st' =>
              .ok { cs with store := st',
                            stats := { cs.stats with
                                       reminded15 := cs.stats.reminded15 + 1 } }
          else .ok cs
        else .ok cs
    else if doc.status = .reminded15 then
      match doc.reminded15At with
      | none => .ok cs
      | some r15 =>
        if r15 + interval ≤ now then
          let result := send token (to_fcm_data template uid kr.1.slotLabel dateStr true 2)
          if result.success then
            match upsert_state kr.1 doc.notificationType doc.scheduledUtc
                .reminded30 (.reminded30At now) cs.store with
            | .error e => .error e
            | .ok st' =>
              .ok { cs with store := st',
                            stats := { cs.stats with
                                       reminded30 := cs.stats.reminded30 + 1 } }
          else .ok cs
        else .ok cs
    else if doc.status = .reminded30 then
      match doc.reminded30At with
      | none => .ok cs
      | some r30 =>
        if r30 + interval ≤ now then
          match upsert_state kr.1 doc.notificationType doc.scheduledUtc
              .expired .noStamp cs.store with
          | .error e => .error e
          | .ok st' =>
            .ok { cs with store := st',
                          stats := { cs.stats with
                                     expired := cs.stats.expired + 1 } }
        else .ok cs
    else .ok cs

/-- The `for state in states` loop of `run_notification_cycle`: an
exception raised by any loop body escapes the whole cycle, leaving the
remaining snapshot documents unprocessed. -/
def cycleLoop (send : String → List (String × String) → FCMResult)
    (tokenMap : String → String) (interval : Int) (now : Int) (dateStr : String) :
    List (Key × Rec) → CycleState → Except Unit CycleState
  | [], cs => .ok cs
  | kr :: rest, cs =>
    match processState send tokenMap interval now dateStr cs kr with
    | .error e => .error e
    | .ok cs' => cycleLoop send tokenMap interval now dateStr rest cs'

/-- Model of `run_notification_cycle`: load today's non-terminal snapshot
documents, then run the loop body over them starting from empty stale set
and zero counters.  `tokenMap` models the batch token fetch
(`token_map.get(uid, "")`), `send` the gateway, `now` the single
`datetime.now(timezone.utc)` read at entry, and `dateStr` its date.  An
escaping exception (a conflicting state write) aborts the cycle. -/
def run_notification_cycle (send : String → List (String × String) → FCMResult)
    (tokenMap : String → String) (interval : Int) (now : Int) (dateStr : String)
    (store : Store) : Except Unit CycleState :=
  cycleLoop send tokenMap interval now dateStr
    (get_all_pending_states dateStr store)
    { store := store, staleUids := [], cleared := [], stats := initStats }

/-!  Seeding job (`app/scheduler/notification_scheduler.py:165`). -/

/-- The writes of one user's seeding loop: every built slot upserted in
status `pending` with no timestamp kwargs (the kwarg-free `$set` document
is disjoint from `$setOnInsert`, so these writes are conflict-free). -/
def seedUserWrites (uid dateStr : String) (slots : List Slot) (store : Store) :
    Store :=
  slots.foldl
    (fun st slot =>
      upsertWrite { uid := uid, date := dateStr, slotLabel := slot.slotLabel }
        slot.notificationType slot.scheduledUtc .pending .noStamp st)
    store

/-- Inner loop of `seed_daily_states` for one user: awaits `upsert_state`
per slot, an exception propagating out of the job. -/
def seedUserSlots (uid dateStr : String) :
    List Slot → Store → Except Unit Store
  | [], store => .ok store
  | slot :: rest, store =>
    match upsert_state { uid := uid, date := dateStr, slotLabel := slot.slotLabel }
        slot.notificationType slot.scheduledUtc .pending .noStamp store with
    | .error e => .error e
    | .ok st' => seedUserSlots uid dateStr rest st'

lemma seedUserSlots_eq (uid dateStr : String) :
    ∀ (slots : List Slot) (store : Store),
      seedUserSlots uid dateStr slots store =
        .ok (seedUserWrites uid dateStr slots store) := by
  intro slots
  induction slots with
  | nil => intro store; rfl
  | cons hd tl ih =>
    intro store
    simp only [seedUserSlots, upsert_state_noStamp]
    exact ih _

/-- Recursion of `seed_daily_states` over the opted-in users, carrying the
store and the `seeded` counter; a schedule-builder or state-store exception
aborts the whole job. -/
def seedLoop (tzdb : String → Option Int) (dateStr : String) (dateVal now : Int) :
    List (String × NotificationPrefs) → Store → Nat → Except Unit (Store × Nat)
  | [], store, n => .ok (store, n)
  | (uid, prefs) :: rest, store, n =>
    match _build_schedule tzdb prefs dateVal true now with
    | .error e => .error e
    | .ok slots =>
      match seedUserSlots uid dateStr slots store with
      | .error e => .error e
      | .ok st' => seedLoop tzdb dateStr dateVal now rest st' (n + slots.length)

/-- Model of `seed_daily_states`: `users` is the already-filtered list of
users holding a registered fcm token, paired with their merged notification
preferences; the schedule is built with `skip_past=True` and every produced
slot upserted as `pending`.  Returns the store and the seeded count. -/
def seed_daily_states (tzdb : String → Option Int)
    (users : List (String × NotificationPrefs)) (dateStr : String)
    (dateVal now : Int) (store : Store) : Except Unit (Store × Nat) :=
  seedLoop tzdb dateStr dateVal now users store 0

/-!  Action handler (`app/routes/notifications.py`, `/quick-log`). -/

/-- The `SNOOZE_MINUTES` mapping of `notification_templates.py`. -/
def SNOOZE_MINUTES : List (String × Int) :=
  [("need_15_min", 15), ("need_30_min", 30)]

/-- Dict lookup `SNOOZE_MINUTES[action]` guarded by `action in SNOOZE_MINUTES`. -/
def snoozeMinutesOf (action : String) : Option Int :=
  (SNOOZE_MINUTES.find? (fun p => p.1 = action)).map (fun p => p.2)

/-- The `NUTRITION_MEAL_TYPES` set of `notification_templates.py`. -/
def NUTRITION_MEAL_TYPES : List String :=
  ["breakfast", "mid_morning", "lunch", "afternoon_break", "dinner", "post_dinner"]

/-- The `HYDRATION_ML_PER_SLOT` constant of `notification_templates.py`. -/
def HYDRATION_ML_PER_SLOT : Int := 250

/-- Request body of the `/quick-log` endpoint, with `date` already
defaulted to today by `body.date or _today()`. -/
structure QuickLogBody where
  uid : String
  notificationType : String
  slotLabel : String
  action : String
  date : String
deriving DecidableEq, Repr

/-- One write issued against the `daily_logs` collection by `quick_log`
(the health-log collaborator). -/
inductive LogWrite where
  | sleepWake (uid date hhmm : String)
  | sleepBed (uid date hhmm : String)
  | hydrationEntry (uid date : String) (ml : Int) (hhmm : String)
  | nutritionEntry (uid date mealType hhmm : String)
deriving DecidableEq, Repr

/-- Response of the `/quick-log` endpoint: a 200 snooze or ok body, a 400
client error (`HTTPException(status_code=400)`), or the 404 raised by
`_get_user`. -/
inductive QuickLogResponse where
  | snoozed (resendInMinutes : Int)
  | okResp (msg : String)
  | clientError (detail : String)
  | userNotFound
deriving DecidableEq, Repr

/-- Model of the `quick_log` route handler (`app/routes/notifications.py:255`):
a snooze action reschedules unconditionally (no existence check) and writes
no health log; any other action except "yes" is a 400; "yes" looks up the
user, appends the type-appropriate health-log write and unconditionally
calls `mark_resolved`; an unrecognised notification type is a 400 with no
write.  Returns (response, notification store, health-log writes). -/
def quick_log (users : List String) (body : QuickLogBody) (now : Int)
    (nowHHMM : String) (store : Store) (logs : List LogWrite) :
    QuickLogResponse × Store × List LogWrite :=
  let date := body.date
  let k : Key := { uid := body.uid, date := date, slotLabel := body.slotLabel }
  match snoozeMinutesOf body.action with
  | some snoozeMins =>
    (.snoozed snoozeMins,
     update_scheduled_utc k (now + snoozeMins) .pending store, logs)
  | none =>
    if body.action ≠ "yes" then
      (.clientError "unknown action", store, logs)
    else if body.uid ∉ users then
      (.userNotFound, store, logs)
    else if body.notificationType = "wake" then
      (.okResp "wake logged", mark_resolved k "yes" now store,
       logs ++ [.sleepWake body.uid date nowHHMM])
    else if body.notificationType = "bedtime" then
      (.okResp "bedtime logged", mark_resolved k "yes" now store,
       logs ++ [.sleepBed body.uid date nowHHMM])
    else if body.notificationType = "hydration" then
      (.okResp "ml logged", mark_resolved k "yes" now store,
       logs ++ [.hydrationEntry body.uid date HYDRATION_ML_PER_SLOT nowHHMM])
    else if body.notificationType ∈ NUTRITION_MEAL_TYPES then
      (.okResp "meal logged", mark_resolved k "yes" now store,
       logs ++ [.nutritionEntry body.uid date body.notificationType nowHHMM])
    else
      (.clientError "unrecognised notification_type", store, logs)

/-!  Helper lemmas about the state store. -/

lemma findRec_map_guard (k : Key) (f : Rec → Rec) :
    ∀ store : Store,
      findRec k (store.map (fun p => if p.1 = k then (p.1, f p.2) else p)) =
        (findRec k store).map f := by
  intro store
  induction store with
  | nil => rfl
  | cons hd tl ih =>
    by_cases h : hd.1 = k
    · simp [findRec, List.find?_cons, h]
    · simp only [List.map_cons, if_neg h, findRec, List.find?_cons] at ih ⊢
      simp only [h, decide_False] at *
      exact ih

lemma findRec_isSome_eq_containsKey (k : Key) :
    ∀ store : Store, (findRec k store).isSome = containsKey k store := by
  intro store
  induction store with
  | nil => rfl
  | cons hd tl ih =>
    by_cases h : hd.1 = k
    · simp [findRec, containsKey, List.find?_cons, h]
    · simp only [findRec, containsKey, List.find?_cons, List.any_cons] at ih ⊢
      simp only [h, decide_False, Bool.false_or] at *
      exact ih

lemma map_guard_absent (k : Key) (f : Rec → Rec) :
    ∀ store : Store, containsKey k store = false →
      store.map (fun p => if p.1 = k then (p.1, f p.2) else p) = store := by
  intro store
  induction store with
  | nil => intro _; rfl
  | cons hd tl ih =>
    intro h
    simp only [containsKey, List.any_cons, Bool.or_eq_false_iff,
      decide_eq_false_iff_not] at h
    simp only [List.map_cons, if_neg h.1]
    rw [ih h.2]

lemma findRec_update_scheduled_utc (k : Key) (ns : Int) (nst : Status)
    (store : Store) :
    findRec k (update_scheduled_utc k ns nst store) =
      (findRec k store).map (snoozeSet ns nst) := by
  unfold update_scheduled_utc
  exact findRec_map_guard k _ store

lemma findRec_mark_resolved (k : Key) (tag : String) (now : Int)
    (store : Store) :
    findRec k (mark_resolved k tag now store) =
      (findRec k store).map (resolveSet tag now) := by
  unfold mark_resolved
  exact findRec_map_guard k _ store

lemma mark_resolved_absent (k : Key) (tag : String) (now : Int) (store : Store)
    (h : findRec k store = none) : mark_resolved k tag now store = store := by
  have hc : containsKey k store = false := by
    rw [← findRec_isSome_eq_containsKey, h]
    rfl
  unfold mark_resolved
  exact map_guard_absent k _ store hc

/-!  C10 — snooze revives records regardless of current status. -/

/-- C10: `update_scheduled_utc` (the snooze path of `quick_log`)
unconditionally resets any existing record — including one already
`resolved` or `expired` — to status `pending` with the fresh scheduled
instant and all three stage timestamps cleared, while the prior
`resolved_at` and `action_taken` values are left populated on the revived
record, and no health-log fact is written. -/
theorem snooze_revives_terminal_records (users : List String)
    (body : QuickLogBody) (now : Int) (nowHHMM : String) (store : Store)
    (logs : List LogWrite) (r : Rec) (mins : Int)
    (hfind : findRec { uid := body.uid, date := body.date,
                       slotLabel := body.slotLabel } store = some r)
    (hact : snoozeMinutesOf body.action = some mins) :
    (quick_log users body now nowHHMM store logs).1 = .snoozed mins ∧
    (quick_log users body now nowHHMM store logs).2.2 = logs ∧
    findRec { uid := body.uid, date := body.date, slotLabel := body.slotLabel }
        (quick_log users body now nowHHMM store logs).2.1 =
      some { r with scheduledUtc := now + mins, status := .pending,
                    sentAt := none, reminded15At := none,
                    reminded30At := none } ∧
    ({ r with scheduledUtc := now + mins, status := .pending,
              sentAt := none, reminded15At := none,
              reminded30At := none } : Rec).resolvedAt = r.resolvedAt ∧
    ({ r with scheduledUtc := now + mins, status := .pending,
              sentAt := none, reminded15At := none,
              reminded30At := none } : Rec).actionTaken = r.actionTaken := by
  unfold quick_log
  rw [hact]
  refine ⟨rfl, rfl, ?_, rfl, rfl⟩
  rw [findRec_update_scheduled_utc, hfind]
  rfl

/-- Witness for C10 at a concrete resolved record. -/
theorem snooze_revives_terminal_records_witness :
    (quick_log ["u1"]
        { uid := "u1", notificationType := "hydration",
          slotLabel := "hydration_2", action := "need_30_min",
          date := "2024-06-01" } 600 "15:30"
        [({ uid := "u1", date := "2024-06-01", slotLabel := "hydration_2" },
          { notificationType := "hydration", scheduledUtc := 500,
            status := .resolved, sentAt := some 500, reminded15At := none,
            reminded30At := none, resolvedAt := some 510,
            actionTaken := some "yes" })] []).1 = .snoozed 30 ∧
    findRec { uid := "u1", date := "2024-06-01", slotLabel := "hydration_2" }
        (quick_log ["u1"]
          { uid := "u1", notificationType := "hydration",
            slotLabel := "hydration_2", action := "need_30_min",
            date := "2024-06-01" } 600 "15:30"
          [({ uid := "u1", date := "2024-06-01", slotLabel := "hydration_2" },
            { notificationType := "hydration", scheduledUtc := 500,
              status := .resolved, sentAt := some 500, reminded15At := none,
              reminded30At := none, resolvedAt := some 510,
              actionTaken := some "yes" })] []).2.1 =
      some { notificationType := "hydration", scheduledUtc := 630,
             status := .pending, sentAt := none, reminded15At := none,
             reminded30At := none, resolvedAt := some 510,
             actionTaken := some "yes" } := by
  have h := snooze_revives_terminal_records ["u1"]
    { uid := "u1", notificationType := "hydration",
      slotLabel := "hydration_2", action := "need_30_min",
      date := "2024-06-01" } 600 "15:30"
    [({ uid := "u1", date := "2024-06-01", slotLabel := "hydration_2" },
      { notificationType := "hydration", scheduledUtc := 500,
        status := .resolved, sentAt := some 500, reminded15At := none,
        reminded30At := none, resolvedAt := some 510,
        actionTaken := some "yes" })] []
    { notificationType := "hydration", scheduledUtc := 500,
      status := .resolved, sentAt := some 500, reminded15At := none,
      reminded30At := none, resolvedAt := some 510,
      actionTaken := some "yes" } 30 (by decide) (by decide)
  exact ⟨h.1, h.2.2.1⟩

lemma update_scheduled_utc_absent (k : Key) (ns : Int) (nst : Status)
    (store : Store) (h : findRec k store = none) :
    update_scheduled_utc k ns nst store = store := by
  have hc : containsKey k store = false := by
    rw [← findRec_isSome_eq_containsKey, h]
    rfl
  unfold update_scheduled_utc
  exact map_guard_absent k _ store hc

/-!  C6 — snooze tiers reset the record to a fresh pending slot. -/

/-- C6: on a record in a non-terminal state, a snooze action writes no
health-log fact and rewrites the record to status `pending` with scheduled
instant `now + 15` for `need_15_min` (resp. `now + 30` for `need_30_min`)
and all three stage timestamps cleared. -/
theorem snooze_resets_clock (users : List String) (body : QuickLogBody)
    (now : Int) (nowHHMM : String) (store : Store) (logs : List LogWrite)
    (r : Rec)
    (hfind : findRec { uid := body.uid, date := body.date,
                       slotLabel := body.slotLabel } store = some r)
    (_hnonterm : r.status ≠ .resolved ∧ r.status ≠ .expired)
    (hact : body.action = "need_15_min" ∨ body.action = "need_30_min") :
    (quick_log users body now nowHHMM store logs).2.2 = logs ∧
    (quick_log users body now nowHHMM store logs).1 =
      .snoozed (if body.action = "need_15_min" then 15 else 30) ∧
    findRec { uid := body.uid, date := body.date, slotLabel := body.slotLabel }
        (quick_log users body now nowHHMM store logs).2.1 =
      some { r with
        scheduledUtc :=
          now + (if body.action = "need_15_min" then 15 else 30),
        status := .pending, sentAt := none, reminded15At := none,
        reminded30At := none } := by
  rcases hact with h | h
  · have hact' : snoozeMinutesOf body.action = some 15 := by
      rw [h]
      decide
    have hif : (if body.action = "need_15_min" then (15 : Int) else 30) = 15 :=
      if_pos h
    unfold quick_log
    rw [hact', hif]
    refine ⟨rfl, rfl, ?_⟩
    rw [findRec_update_scheduled_utc, hfind]
    rfl
  · have hact' : snoozeMinutesOf body.action = some 30 := by
      rw [h]
      decide
    have hif : (if body.action = "need_15_min" then (15 : Int) else 30) = 30 := by
      rw [h]
      decide
    unfold quick_log
    rw [hact', hif]
    refine ⟨rfl, rfl, ?_⟩
    rw [findRec_update_scheduled_utc, hfind]
    rfl

/-- Witness for C6 at a concrete sent record and the 15-minute tier. -/
theorem snooze_resets_clock_witness :
    (quick_log ["u1"]
        { uid := "u1", notificationType := "wake", slotLabel := "wake",
          action := "need_15_min", date := "2024-06-01" } 100 "07:10"
        [({ uid := "u1", date := "2024-06-01", slotLabel := "wake" },
          { notificationType := "wake", scheduledUtc := 90, status := .sent,
            sentAt := some 95, reminded15At := none, reminded30At := none,
            resolvedAt := none, actionTaken := none })] []).2.2 =
      ([] : List LogWrite) ∧
    findRec { uid := "u1", date := "2024-06-01", slotLabel := "wake" }
        (quick_log ["u1"]
          { uid := "u1", notificationType := "wake", slotLabel := "wake",
            action := "need_15_min", date := "2024-06-01" } 100 "07:10"
          [({ uid := "u1", date := "2024-06-01", slotLabel := "wake" },
            { notificationType := "wake", scheduledUtc := 90, status := .sent,
              sentAt := some 95, reminded15At := none, reminded30At := none,
              resolvedAt := none, actionTaken := none })] []).2.1 =
      some { notificationType := "wake", scheduledUtc := 115,
             status := .pending, sentAt := none, reminded15At := none,
             reminded30At := none, resolvedAt := none, actionTaken := none } := by
  have h := snooze_resets_clock ["u1"]
    { uid := "u1", notificationType := "wake", slotLabel := "wake",
      action := "need_15_min", date := "2024-06-01" } 100 "07:10"
    [({ uid := "u1", date := "2024-06-01", slotLabel := "wake" },
      { notificationType := "wake", scheduledUtc := 90, status := .sent,
        sentAt := some 95, reminded15At := none, reminded30At := none,
        resolvedAt := none, actionTaken := none })] []
    { notificationType := "wake", scheduledUtc := 90, status := .sent,
      sentAt := some 95, reminded15At := none, reminded30At := none,
      resolvedAt := none, actionTaken := none }
    (by decide) (by decide) (Or.inl rfl)
  exact ⟨h.1, h.2.2⟩

/-!  C5 — resolution supersedes the pipeline. -/

/-- C5: `mark_resolved` on an existing non-terminal record leaves it
`resolved` with `resolved_at` and the action tag recorded; resolved records
never appear in the cycle's `get_all_pending_states` query, and a
subsequent cycle pass over the resolved record's store leaves the store
unchanged (in particular the record is never expired). -/
theorem resolve_supersedes_cycle (k : Key) (r : Rec) (tag : String)
    (now : Int) (store : Store)
    (hfind : findRec k store = some r)
    (_hnonterm : r.status ≠ .resolved ∧ r.status ≠ .expired) :
    findRec k (mark_resolved k tag now store) =
      some { r with status := .resolved, resolvedAt := some now,
                    actionTaken := some tag } ∧
    (∀ p ∈ get_all_pending_states k.date (mark_resolved k tag now store),
      p.1 ≠ k) ∧
    (∀ send tokenMap interval now2,
      (run_notification_cycle send tokenMap interval now2 k.date
          (mark_resolved k tag now [(k, r)])).map CycleState.store =
        .ok (mark_resolved k tag now [(k, r)])) := by
  refine ⟨?_, ?_, ?_⟩
  · rw [findRec_mark_resolved, hfind]
    rfl
  · intro p hp
    rw [get_all_pending_states, List.mem_filter] at hp
    obtain ⟨hmem, hpred⟩ := hp
    simp only [decide_eq_true_eq] at hpred
    unfold mark_resolved at hmem
    obtain ⟨q, hq, hgq⟩ := List.mem_map.1 hmem
    by_cases hqk : q.1 = k
    · rw [if_pos hqk] at hgq
      have : p.2.status = .resolved := by
        rw [← hgq]
        rfl
      exact absurd this hpred.2.1
    · rw [if_neg hqk] at hgq
      rw [← hgq]
      exact hqk
  · intro send tokenMap interval now2
    have hstep : mark_resolved k tag now [(k, r)] =
        [(k, resolveSet tag now r)] := by
      unfold mark_resolved
      simp
    rw [hstep]
    unfold run_notification_cycle
    have : get_all_pending_states k.date [(k, resolveSet tag now r)] = [] := by
      unfold get_all_pending_states resolveSet
      simp
    rw [this]
    rfl

/-- Witness for C5 at a concrete reminded_30 record. -/
theorem resolve_supersedes_cycle_witness :
    findRec { uid := "u1", date := "2024-06-01", slotLabel := "lunch" }
        (mark_resolved { uid := "u1", date := "2024-06-01", slotLabel := "lunch" }
          "yes" 800
          [({ uid := "u1", date := "2024-06-01", slotLabel := "lunch" },
            { notificationType := "lunch", scheduledUtc := 750,
              status := .reminded30, sentAt := some 750,
              reminded15At := some 765, reminded30At := some 780,
              resolvedAt := none, actionTaken := none })]) =
      some { notificationType := "lunch", scheduledUtc := 750,
             status := .resolved, sentAt := some 750,
             reminded15At := some 765, reminded30At := some 780,
             resolvedAt := some 800, actionTaken := some "yes" } := by
  have h := resolve_supersedes_cycle
    { uid := "u1", date := "2024-06-01", slotLabel := "lunch" }
    { notificationType := "lunch", scheduledUtc := 750,
      status := .reminded30, sentAt := some 750, reminded15At := some 765,
      reminded30At := some 780, resolvedAt := none, actionTaken := none }
    "yes" 800
    [({ uid := "u1", date := "2024-06-01", slotLabel := "lunch" },
      { notificationType := "lunch", scheduledUtc := 750,
        status := .reminded30, sentAt := some 750, reminded15At := some 765,
        reminded30At := some 780, resolvedAt := none, actionTaken := none })]
    (by decide) (by decide)
  exact h.1

/-!  C9 — rejection behaviour of the action handler. -/

/-- Counterexample to C9: a `yes` action for a (user, date, slot) with no
State Store record is not rejected — `quick_log` returns a 200 response,
appends the hydration health-log fact, and `mark_resolved` silently matches
nothing. -/
theorem quick_log_missing_slot_accepted :
    quick_log ["u1"]
        { uid := "u1", notificationType := "hydration",
          slotLabel := "hydration_3", action := "yes", date := "2024-06-01" }
        0 "05:30" [] [] =
      (.okResp "ml logged", [],
       [.hydrationEntry "u1" "2024-06-01" 250 "05:30"]) := by
  decide

/-- C9 amended: an unknown action id is rejected as a 400 client error with
no mutation of the store or the health log, and so is an unrecognised
notification type under action `yes`; but an action referencing a missing
record is not rejected: a snooze for a missing record answers 200 and
leaves the store unchanged, and a `yes` for a missing record answers 200,
appends the health-log fact, and leaves the store unchanged. -/
theorem quick_log_rejections (users : List String) (body : QuickLogBody)
    (now : Int) (nowHHMM : String) (store : Store) (logs : List LogWrite) :
    (body.action ≠ "yes" → body.action ≠ "need_15_min" →
      body.action ≠ "need_30_min" →
      quick_log users body now nowHHMM store logs =
        (.clientError "unknown action", store, logs)) ∧
    (body.action = "yes" → body.uid ∈ users →
      body.notificationType ≠ "wake" → body.notificationType ≠ "bedtime" →
      body.notificationType ≠ "hydration" →
      body.notificationType ∉ NUTRITION_MEAL_TYPES →
      quick_log users body now nowHHMM store logs =
        (.clientError "unrecognised notification_type", store, logs)) ∧
    (∀ mins, snoozeMinutesOf body.action = some mins →
      findRec { uid := body.uid, date := body.date,
                slotLabel := body.slotLabel } store = none →
      quick_log users body now nowHHMM store logs =
        (.snoozed mins, store, logs)) ∧
    (body.action = "yes" → body.uid ∈ users →
      body.notificationType = "hydration" →
      findRec { uid := body.uid, date := body.date,
                slotLabel := body.slotLabel } store = none →
      quick_log users body now nowHHMM store logs =
        (.okResp "ml logged", store,
         logs ++ [.hydrationEntry body.uid body.date 250 nowHHMM])) := by
  refine ⟨?_, ?_, ?_, ?_⟩
  · intro hyes h15 h30
    have hact : snoozeMinutesOf body.action = none := by
      unfold snoozeMinutesOf SNOOZE_MINUTES
      rw [List.find?_cons_of_neg, List.find?_cons_of_neg]
      · rfl
      · simp only [decide_eq_true_eq]
        exact fun hc => h30 hc.symm
      · simp only [decide_eq_true_eq]
        exact fun hc => h15 hc.symm
    unfold quick_log
    rw [hact]
    dsimp only
    rw [if_pos hyes]
  · intro hyes huid hwake hbed hhyd hnut
    have hact : snoozeMinutesOf body.action = none := by
      rw [hyes]
      decide
    unfold quick_log
    rw [hact]
    dsimp only
    rw [if_neg (not_not_intro hyes), if_neg (not_not_intro huid),
      if_neg hwake, if_neg hbed, if_neg hhyd, if_neg hnut]
  · intro mins hact hnone
    unfold quick_log
    rw [hact]
    dsimp only
    rw [update_scheduled_utc_absent _ _ _ _ hnone]
  · intro hyes huid hhyd hnone
    have hact : snoozeMinutesOf body.action = none := by
      rw [hyes]
      decide
    unfold quick_log
    rw [hact]
    dsimp only
    rw [if_neg (not_not_intro hyes), if_neg (not_not_intro huid),
      if_neg (by rw [hhyd]; decide), if_neg (by rw [hhyd]; decide),
      if_pos hhyd, mark_resolved_absent _ _ _ _ hnone]
    rfl

/-- Witness for the C9 amended theorem: an unknown action id on a concrete
request is rejected with no mutation. -/
theorem quick_log_rejections_witness :
    quick_log ["u1"]
        { uid := "u1", notificationType := "hydration",
          slotLabel := "hydration_3", action := "ml_250",
          date := "2024-06-01" } 0 "05:30" [] [] =
      (.clientError "unknown action", [], []) :=
  (quick_log_rejections ["u1"]
    { uid := "u1", notificationType := "hydration",
      slotLabel := "hydration_3", action := "ml_250", date := "2024-06-01" }
    0 "05:30" [] []).1 (by decide) (by decide) (by decide)

/-!  C4 — determinism of the schedule builder. -/

/-- Preferences enabling only the wake slot, in UTC. -/
def prefsWakeOnly : NotificationPrefs :=
  { DEFAULT_PREFS with timezone := "UTC", nutritionEnabled := false,
                       hydrationEnabled := false, bedtimeTime := "" }

/-- Counterexample to C4: `_build_schedule` consults the wall clock
(`datetime.now`) for the `skip_past` filter, so two invocations with
identical preferences, identical target date and identical `skip_past=True`
flag return different slot lists when the clock has moved past a slot
(here the 07:00 UTC wake slot, instant 420, queried at now = 0 and at
now = 1000). -/
theorem build_schedule_clock_dependent :
    _build_schedule tzdbTest prefsWakeOnly 0 true 0 ≠
      _build_schedule tzdbTest prefsWakeOnly 0 true 1000 := by
  decide

lemma buildSlots_skip_past_false (tzdb : String → Option Int) (tz : String)
    (dv now₁ now₂ : Int) :
    ∀ l, buildSlots tzdb tz dv false now₁ l = buildSlots tzdb tz dv false now₂ l := by
  intro l
  induction l with
  | nil => rfl
  | cons hd tl ih =>
    obtain ⟨lbl, ty, t⟩ := hd
    by_cases ht : t = ""
    · simp only [buildSlots, if_pos ht]
      exact ih
    · simp only [buildSlots, if_neg ht]
      cases hp : _parse_local_time tzdb t dv tz with
      | error e => rfl
      | ok utc =>
        rw [ih]
        cases buildSlots tzdb tz dv false now₂ tl with
        | error e => rfl
        | ok tail =>
          simp

/-- C4 amended: `_build_schedule` is pure in its explicit inputs plus the
current clock; with `skip_past=False` the output is independent of the
clock, so identical preferences and date give identical output.  With
`skip_past=True` the output additionally depends on `now` (slots already
past are dropped), as the counterexample shows. -/
theorem build_schedule_det_skip_past_false (tzdb : String → Option Int)
    (prefs : NotificationPrefs) (dateVal now₁ now₂ : Int) :
    _build_schedule tzdb prefs dateVal false now₁ =
      _build_schedule tzdb prefs dateVal false now₂ := by
  unfold _build_schedule
  by_cases hg : prefs.globalEnabled = false
  · rw [if_pos hg, if_pos hg]
  · rw [if_neg hg, if_neg hg]
    exact buildSlots_skip_past_false tzdb prefs.timezone dateVal now₁ now₂
      (slotCandidates prefs)

/-!  C3 — error handling of the schedule builder. -/

/-- Preferences identical to the defaults except for an unparseable wake
time string. -/
def prefsBadTime : NotificationPrefs :=
  { DEFAULT_PREFS with wakeTime := "seven am" }

/-- Counterexample to C3: a present but unparseable time string is not
silently omitted — `datetime.strptime` raises a ValueError that escapes
`_build_schedule`, failing the whole schedule. -/
theorem build_schedule_raises_on_bad_time :
    _build_schedule tzdbTest prefsBadTime 0 true 0 = .error () := by
  decide

lemma buildSlots_ok_of_parse (tzdb : String → Option Int) (tz : String)
    (dv : Int) (sp : Bool) (now : Int) :
    ∀ l, (∀ c ∈ l, c.2.2 ≠ "" → (parseHHMM c.2.2).isSome) →
      ∃ out, buildSlots tzdb tz dv sp now l = .ok out := by
  intro l
  induction l with
  | nil => exact fun _ => ⟨[], rfl⟩
  | cons hd tl ih =>
    intro h
    obtain ⟨lbl, ty, t⟩ := hd
    have htl := ih (fun c hc => h c (List.mem_cons_of_mem _ hc))
    by_cases ht : t = ""
    · simp only [buildSlots, if_pos ht]
      exact htl
    · have hp : (parseHHMM t).isSome := h (lbl, ty, t) (List.mem_cons_self _ _) ht
      obtain ⟨hm, hhm⟩ := Option.isSome_iff_exists.1 hp
      have hparse : ∃ u, _parse_local_time tzdb t dv tz = .ok u := by
        unfold _parse_local_time
        rw [hhm]
        exact ⟨_, rfl⟩
      obtain ⟨u, hu⟩ := hparse
      obtain ⟨tail, htail⟩ := htl
      by_cases hpast : sp = false ∨ now ≤ u
      · refine ⟨{ slotLabel := lbl, notificationType := ty,
                  scheduledUtc := u } :: tail, ?_⟩
        simp only [buildSlots, if_neg ht, hu, htail, if_pos hpast]
      · refine ⟨tail, ?_⟩
        simp only [buildSlots, if_neg ht, hu, htail, if_neg hpast]

/-- C3 amended: the Schedule Builder never raises as long as every present
time string parses — a slot whose time string is absent/falsy is silently
omitted while the rest of the schedule is still produced, and an unknown
timezone identifier falls back to UTC (offset 0) rather than failing; but
a present, unparseable time string raises out of the whole builder (see
the counterexample). -/
theorem build_schedule_error_handling_amended (tzdb : String → Option Int)
    (prefs : NotificationPrefs) (dateVal : Int) (skipPast : Bool) (now : Int) :
    ((∀ c ∈ slotCandidates prefs, c.2.2 ≠ "" → (parseHHMM c.2.2).isSome) →
      ∃ slots, _build_schedule tzdb prefs dateVal skipPast now = .ok slots) ∧
    (∀ tzName lbl ty rest,
      buildSlots tzdb tzName dateVal skipPast now ((lbl, ty, "") :: rest) =
        buildSlots tzdb tzName dateVal skipPast now rest) ∧
    (∀ tzName utcName t dv, tzdb tzName = none → tzdb utcName = some 0 →
      _parse_local_time tzdb t dv tzName = _parse_local_time tzdb t dv utcName) := by
  refine ⟨?_, ?_, ?_⟩
  · intro h
    unfold _build_schedule
    by_cases hg : prefs.globalEnabled = false
    · rw [if_pos hg]
      exact ⟨[], rfl⟩
    · rw [if_neg hg]
      exact buildSlots_ok_of_parse tzdb prefs.timezone dateVal skipPast now
        (slotCandidates prefs) h
  · intro tzName lbl ty rest
    simp [buildSlots]
  · intro tzName utcName t dv h0 h1
    unfold _parse_local_time
    rw [h0, h1]
    rfl

/-- Witness for the C3 amended theorem: the default preferences parse, so
the builder returns `.ok`; the empty-time slot is dropped; and an unknown
timezone behaves like UTC. -/
theorem build_schedule_error_handling_amended_witness :
    (∃ slots, _build_schedule tzdbTest DEFAULT_PREFS 0 true 0 = .ok slots) ∧
    buildSlots tzdbTest "UTC" 0 true 0 [("wake", "wake", "")] =
      buildSlots tzdbTest "UTC" 0 true 0 [] ∧
    _parse_local_time tzdbTest "08:45" 0 "Mars/Olympus" =
      _parse_local_time tzdbTest "08:45" 0 "UTC" := by
  have h := build_schedule_error_handling_amended tzdbTest DEFAULT_PREFS 0 true 0
  exact ⟨h.1 (by decide), h.2.1 "UTC" "wake" "wake" [],
    h.2.2 "Mars/Olympus" "UTC" "08:45" 0 (by decide) (by decide)⟩

/-!  C2 / C7 — the cycle engine cannot persist its stamped transitions. -/

/-- Gateway oracle where every delivery attempt succeeds. -/
def succSend : String → List (String × String) → FCMResult :=
  fun _ _ => send_data_message (.ok "msgid")

/-- Token map resolving every user to a usable token. -/
def oneToken : String → String := fun _ => "tok"

lemma oneToken_ne (u : String) : oneToken u ≠ "" := of_decide_eq_false rfl

/-- A freshly seeded record: status `pending`, scheduled at `T`, no stage
timestamps (the `$setOnInsert` document of the seeding upsert). -/
def seededRec (ty : String) (T : Int) : Rec :=
  { notificationType := ty, scheduledUtc := T, status := .pending,
    sentAt := none, reminded15At := none, reminded30At := none,
    resolvedAt := none, actionTaken := none }

lemma processState_pending_due_raises (tokenMap : String → String)
    (interval now : Int) (dateStr : String) (cs : CycleState) (k : Key)
    (r : Rec) (htok : tokenMap k.uid ≠ "") (hstale : k.uid ∉ cs.staleUids)
    (hst : r.status = .pending) (hdue : r.scheduledUtc ≤ now) :
    processState succSend tokenMap interval now dateStr cs (k, r) =
      .error () := by
  have hnotskip : ¬ (tokenMap k.uid = "" ∨ k.uid ∈ cs.staleUids) := by
    intro hor
    rcases hor with h | h
    · exact htok h
    · exact hstale h
  unfold processState
  dsimp only
  rw [if_neg hnotskip, if_pos ⟨hst, hdue⟩]
  simp [succSend, send_data_message, upsert_state_sentAt]

lemma processState_sent_due_raises (tokenMap : String → String)
    (interval now sa : Int) (dateStr : String) (cs : CycleState) (k : Key)
    (r : Rec) (htok : tokenMap k.uid ≠ "") (hstale : k.uid ∉ cs.staleUids)
    (hst : r.status = .sent) (hsa : r.sentAt = some sa)
    (hdue : sa + interval ≤ now) :
    processState succSend tokenMap interval now dateStr cs (k, r) =
      .error () := by
  have hnotskip : ¬ (tokenMap k.uid = "" ∨ k.uid ∈ cs.staleUids) := by
    intro hor
    rcases hor with h | h
    · exact htok h
    · exact hstale h
  unfold processState
  dsimp only
  rw [if_neg hnotskip,
    if_neg (by simp [hst] : ¬ (r.status = Status.pending ∧ r.scheduledUtc ≤ now)),
    if_pos hst]
  simp [hsa, hdue, succSend, send_data_message, upsert_state_reminded15At]

lemma processState_r15_due_raises (tokenMap : String → String)
    (interval now t15 : Int) (dateStr : String) (cs : CycleState) (k : Key)
    (r : Rec) (htok : tokenMap k.uid ≠ "") (hstale : k.uid ∉ cs.staleUids)
    (hst : r.status = .reminded15) (h15 : r.reminded15At = some t15)
    (hdue : t15 + interval ≤ now) :
    processState succSend tokenMap interval now dateStr cs (k, r) =
      .error () := by
  have hnotskip : ¬ (tokenMap k.uid = "" ∨ k.uid ∈ cs.staleUids) := by
    intro hor
    rcases hor with h | h
    · exact htok h
    · exact hstale h
  unfold processState
  dsimp only
  rw [if_neg hnotskip,
    if_neg (by simp [hst] : ¬ (r.status = Status.pending ∧ r.scheduledUtc ≤ now)),
    if_neg (by simp [hst] : ¬ r.status = Status.sent), if_pos hst]
  simp [h15, hdue, succSend, send_data_message, upsert_state_reminded30At]

lemma processState_r30_due_ok (send : String → List (String × String) → FCMResult)
    (tokenMap : String → String) (interval now t30 : Int) (dateStr : String)
    (cs : CycleState) (k : Key) (r : Rec)
    (htok : tokenMap k.uid ≠ "") (hstale : k.uid ∉ cs.staleUids)
    (hst : r.status = .reminded30) (h30 : r.reminded30At = some t30)
    (hdue : t30 + interval ≤ now) :
    processState send tokenMap interval now dateStr cs (k, r) =
      .ok { cs with
        store := upsertWrite k r.notificationType r.scheduledUtc .expired
                   .noStamp cs.store,
        stats := { cs.stats with expired := cs.stats.expired + 1 } } := by
  have hnotskip : ¬ (tokenMap k.uid = "" ∨ k.uid ∈ cs.staleUids) := by
    intro hor
    rcases hor with h | h
    · exact htok h
    · exact hstale h
  unfold processState
  dsimp only
  rw [if_neg hnotskip,
    if_neg (by simp [hst] : ¬ (r.status = Status.pending ∧ r.scheduledUtc ≤ now)),
    if_neg (by simp [hst] : ¬ r.status = Status.sent),
    if_neg (by simp [hst] : ¬ r.status = Status.reminded15), if_pos hst]
  simp [h30, hdue, upsert_state_noStamp]

lemma processState_pending_early (send : String → List (String × String) → FCMResult)
    (tokenMap : String → String) (interval now : Int) (dateStr : String)
    (cs : CycleState) (k : Key) (r : Rec)
    (htok : tokenMap k.uid ≠ "") (hstale : k.uid ∉ cs.staleUids)
    (hst : r.status = .pending) (hdue : ¬ r.scheduledUtc ≤ now) :
    processState send tokenMap interval now dateStr cs (k, r) = .ok cs := by
  have hnotskip : ¬ (tokenMap k.uid = "" ∨ k.uid ∈ cs.staleUids) := by
    intro hor
    rcases hor with h | h
    · exact htok h
    · exact hstale h
  unfold processState
  dsimp only
  rw [if_neg hnotskip,
    if_neg (fun hc => hdue hc.2),
    if_neg (by simp [hst] : ¬ r.status = Status.sent),
    if_neg (by simp [hst] : ¬ r.status = Status.reminded15),
    if_neg (by simp [hst] : ¬ r.status = Status.reminded30)]

/-- C2 (code bug): with a valid token and every delivery succeeding, each
of the cycle engine's `pending → sent`, `sent → reminded_15` and
`reminded_15 → reminded_30` state writes raises instead of persisting:
`upsert_state` repeats the stage-timestamp path in both `$set` (the kwarg)
and `$setOnInsert`, which MongoDB rejects with ConflictingUpdateOperators,
and the exception escapes `run_notification_cycle` — so a record can never
be advanced along the ladder the claim (and the function's own docstring)
describes.  Only the kwarg-free `reminded_30 → expired` write persists. -/
theorem cycle_transition_write_conflict (tokenMap : String → String)
    (interval now : Int) (dateStr : String) (cs : CycleState) (k : Key)
    (htok : tokenMap k.uid ≠ "") (hstale : k.uid ∉ cs.staleUids) :
    (∀ r : Rec, r.status = .pending → r.scheduledUtc ≤ now →
      processState succSend tokenMap interval now dateStr cs (k, r) =
        .error ()) ∧
    (∀ (r : Rec) (sa : Int), r.status = .sent → r.sentAt = some sa →
      sa + interval ≤ now →
      processState succSend tokenMap interval now dateStr cs (k, r) =
        .error ()) ∧
    (∀ (r : Rec) (t15 : Int), r.status = .reminded15 →
      r.reminded15At = some t15 → t15 + interval ≤ now →
      processState succSend tokenMap interval now dateStr cs (k, r) =
        .error ()) ∧
    (∀ (r : Rec) (t30 : Int), r.status = .reminded30 →
      r.reminded30At = some t30 → t30 + interval ≤ now →
      processState succSend tokenMap interval now dateStr cs (k, r) =
        .ok { cs with
          store := upsertWrite k r.notificationType r.scheduledUtc .expired
                     .noStamp cs.store,
          stats := { cs.stats with expired := cs.stats.expired + 1 } }) :=
  ⟨fun r h1 h2 =>
    processState_pending_due_raises tokenMap interval now dateStr cs k r
      htok hstale h1 h2,
   fun r sa h1 h2 h3 =>
    processState_sent_due_raises tokenMap interval now sa dateStr cs k r
      htok hstale h1 h2 h3,
   fun r t15 h1 h2 h3 =>
    processState_r15_due_raises tokenMap interval now t15 dateStr cs k r
      htok hstale h1 h2 h3,
   fun r t30 h1 h2 h3 =>
    processState_r30_due_ok succSend tokenMap interval now t30 dateStr cs k r
      htok hstale h1 h2 h3⟩

/-- Witness for C2: a concrete due pending slot with a valid token and a
succeeding delivery makes the cycle loop body raise. -/
theorem cycle_transition_write_conflict_witness :
    processState succSend (fun _ => "tok") 15 0 "2024-06-01"
        { store := [], staleUids := [], cleared := [], stats := initStats }
        ({ uid := "u1", date := "2024-06-01", slotLabel := "wake" },
         seededRec "wake" 0) =
      .error () :=
  (cycle_transition_write_conflict (fun _ => "tok") 15 0 "2024-06-01"
    { store := [], staleUids := [], cleared := [], stats := initStats }
    { uid := "u1", date := "2024-06-01", slotLabel := "wake" }
    (by decide) (by decide)).1 (seededRec "wake" 0) rfl (by decide)

lemma cycle_seeded_due_raises (interval now : Int) (k : Key) (r : Rec)
    (h : r.status = .pending) (hdue : r.scheduledUtc ≤ now) :
    run_notification_cycle succSend oneToken interval now k.date [(k, r)] =
      .error () := by
  unfold run_notification_cycle
  have hq : get_all_pending_states k.date [(k, r)] = [(k, r)] := by
    simp [get_all_pending_states, h]
  rw [hq]
  simp only [cycleLoop]
  rw [processState_pending_due_raises oneToken interval now k.date
    { store := [(k, r)], staleUids := [], cleared := [], stats := initStats }
    k r (oneToken_ne k.uid) (List.not_mem_nil _) h hdue]

lemma cycle_seeded_early_ok (interval now : Int) (k : Key) (r : Rec)
    (h : r.status = .pending) (hdue : ¬ r.scheduledUtc ≤ now) :
    run_notification_cycle succSend oneToken interval now k.date [(k, r)] =
      .ok { store := [(k, r)], staleUids := [], cleared := [],
            stats := initStats } := by
  unfold run_notification_cycle
  have hq : get_all_pending_states k.date [(k, r)] = [(k, r)] := by
    simp [get_all_pending_states, h]
  rw [hq]
  simp only [cycleLoop]
  rw [processState_pending_early succSend oneToken interval now k.date
    { store := [(k, r)], staleUids := [], cleared := [], stats := initStats }
    k r (oneToken_ne k.uid) (List.not_mem_nil _) h hdue]

/-- The stored record for `k` after one cycle attempt at instant `now` on a
store holding exactly that record: the possibly rewritten record when the
cycle returns, and the unchanged record when the cycle raises — the
raising `update_one` is the only store write for this record and MongoDB
persists nothing when it rejects the update document. -/
def recordAfterCycleAttempt (interval now : Int) (k : Key) (r : Rec) : Rec :=
  match run_notification_cycle succSend oneToken interval now k.date
      [(k, r)] with
  | .ok cs => (findRec k cs.store).getD r
  | .error _ => r

/-- Record trajectory of a seeded slot under one cycle attempt per minute:
`traceAttempts I k ty T t` is the stored record after the attempts at
instants `0, 1, …, t-1`, starting from `seededRec ty T`, with every
delivery succeeding and no user action. -/
def traceAttempts (I : Nat) (k : Key) (ty : String) (T : Nat) : Nat → Rec
  | 0 => seededRec ty (T : Int)
  | t + 1 =>
    recordAfterCycleAttempt (I : Int) (t : Int) k (traceAttempts I k ty T t)

lemma recordAfterCycleAttempt_pending (interval now : Int) (k : Key) (r : Rec)
    (h : r.status = .pending) : recordAfterCycleAttempt interval now k r = r := by
  by_cases hdue : r.scheduledUtc ≤ now
  · unfold recordAfterCycleAttempt
    rw [cycle_seeded_due_raises interval now k r h hdue]
  · unfold recordAfterCycleAttempt
    rw [cycle_seeded_early_ok interval now k r h hdue]
    simp [findRec]

lemma traceAttempts_stuck_pending (I : Nat) (k : Key) (ty : String) (T : Nat) :
    ∀ t : Nat, traceAttempts I k ty T t = seededRec ty (T : Int) := by
  intro t
  induction t with
  | zero => rfl
  | succ t ih =>
    show recordAfterCycleAttempt (I : Int) (t : Int) k
        (traceAttempts I k ty T t) = _
    rw [ih, recordAfterCycleAttempt_pending _ _ _ _ rfl]

/-- C7 (code bug): a slot seeded `pending` at instant `T` never reaches
`expired` — in particular not at `T + 3I`: once the slot is due, the very
first `pending → sent` write raises (ConflictingUpdateOperators on
`sent_at`), the cycle aborts, and the stored record stays `pending` under
every further cycle attempt, with deliveries succeeding throughout. -/
theorem expiry_never_reached (T I : Nat) (k : Key) (ty : String) :
    (∀ t : Nat, (traceAttempts I k ty T t).status = .pending) ∧
    (traceAttempts I k ty T (T + 3 * I + 1)).status ≠ .expired ∧
    (∀ now : Int, (T : Int) ≤ now →
      run_notification_cycle succSend oneToken (I : Int) now k.date
        [(k, seededRec ty (T : Int))] = .error ()) := by
  refine ⟨?_, ?_, ?_⟩
  · intro t
    rw [traceAttempts_stuck_pending I k ty T t]
    rfl
  · rw [traceAttempts_stuck_pending I k ty T (T + 3 * I + 1)]
    exact fun hc => Status.noConfusion hc
  · intro now hnow
    exact cycle_seeded_due_raises (I : Int) now k (seededRec ty (T : Int))
      rfl hnow

/-- Witness for C7: with `T = 2`, `I = 1`, the slot is still not expired
right after the attempt at instant `T + 3I = 5`, and the cycle attempt at
instant 2 raises. -/
theorem expiry_never_reached_witness :
    (traceAttempts 1 { uid := "u1", date := "2024-06-01", slotLabel := "wake" }
        "wake" 2 6).status ≠ .expired ∧
    run_notification_cycle succSend oneToken 1 2 "2024-06-01"
        [({ uid := "u1", date := "2024-06-01", slotLabel := "wake" },
          seededRec "wake" 2)] =
      .error () := by
  have h := expiry_never_reached 2 1
    { uid := "u1", date := "2024-06-01", slotLabel := "wake" } "wake"
  exact ⟨h.2.1, h.2.2 2 (by decide)⟩

/-!  C8 — failure handling in the cycle's pending branch. -/

/-- Gateway oracle where every delivery attempt fails with the SDK's
UnregisteredError (classified `token_unregistered` by `send_data_message`). -/
def tokenInvalidSend : String → List (String × String) → FCMResult :=
  fun _ _ => send_data_message .unregisteredError

/-- Gateway oracle failing with a transient (non token-related) error. -/
def transientSend : String → List (String × String) → FCMResult :=
  fun _ _ => send_data_message (.otherError "connection reset by peer")

/-- C8: when the delivery attempt for a due pending slot fails classified
token-invalid, the cycle marks the user stale for the rest of the cycle and
requests removal of the token, leaving the store and counters untouched
(the slot state does not advance); any record processed while its user is
already stale is counted skipped and changes nothing else; and a transient
delivery failure leaves the whole cycle state unchanged, so the slot is
retried against the same threshold on the next pass. -/
theorem delivery_failure_handling (tokenMap : String → String)
    (interval now : Int) (dateStr : String) (cs : CycleState) (k : Key)
    (r : Rec) (htok : tokenMap k.uid ≠ "") (hstale : k.uid ∉ cs.staleUids)
    (hst : r.status = .pending) (hdue : r.scheduledUtc ≤ now) :
    processState tokenInvalidSend tokenMap interval now dateStr cs (k, r) =
      .ok { cs with staleUids := k.uid :: cs.staleUids,
                    cleared := k.uid :: cs.cleared } ∧
    processState transientSend tokenMap interval now dateStr cs (k, r) =
      .ok cs ∧
    (∀ (send : String → List (String × String) → FCMResult)
       (cs' : CycleState) (k' : Key) (r' : Rec),
      k'.uid ∈ cs'.staleUids →
      processState send tokenMap interval now dateStr cs' (k', r') =
        .ok { cs' with stats :=
            { cs'.stats with skipped := cs'.stats.skipped + 1 } }) := by
  have hnotskip : ¬ (tokenMap k.uid = "" ∨ k.uid ∈ cs.staleUids) := by
    intro hor
    rcases hor with h | h
    · exact htok h
    · exact hstale h
  refine ⟨?_, ?_, ?_⟩
  · unfold processState
    dsimp only
    rw [if_neg hnotskip, if_pos ⟨hst, hdue⟩]
    simp [tokenInvalidSend, send_data_message]
  · have hres : ∀ (tok : String) (data : List (String × String)),
        transientSend tok data =
          { success := false, messageId := none,
            error := some "connection reset by peer" } := fun _ _ => rfl
    unfold processState
    dsimp only
    rw [if_neg hnotskip, if_pos ⟨hst, hdue⟩, hres]
    simp
  · intro send cs' k' r' hmem
    unfold processState
    dsimp only
    rw [if_pos (Or.inr hmem)]

/-- Witness for C8: a concrete due pending slot whose delivery fails
token-invalid marks the user stale and requests token removal without
touching the store or the counters. -/
theorem delivery_failure_handling_witness :
    processState tokenInvalidSend (fun _ => "tok") 15 0 "2024-06-01"
        { store := [], staleUids := [], cleared := [], stats := initStats }
        ({ uid := "u1", date := "2024-06-01", slotLabel := "wake" },
         seededRec "wake" 0) =
      .ok { store := [], staleUids := ["u1"], cleared := ["u1"],
            stats := initStats } :=
  (delivery_failure_handling (fun _ => "tok") 15 0 "2024-06-01"
    { store := [], staleUids := [], cleared := [], stats := initStats }
    { uid := "u1", date := "2024-06-01", slotLabel := "wake" }
    (seededRec "wake" 0) (by decide) (by decide) rfl (by decide)).1

/-!  C1 — idempotence and status behaviour of the seeding job. -/

/-- Counterexample to C1: re-running the Seeding Job over a record already
advanced to `sent` (whose freshly computed slot instant, 07:00 UTC = 420,
is still in the future at now = 0) resets its status back to `pending`,
because `upsert_state` puts `status` in the unconditional `$set` document;
the stage timestamp `sent_at` is left as it was. -/
theorem seed_clobbers_advanced_status :
    seed_daily_states tzdbTest [("u1", prefsWakeOnly)] "2024-06-01" 0 0
        [({ uid := "u1", date := "2024-06-01", slotLabel := "wake" },
          { notificationType := "wake", scheduledUtc := 420, status := .sent,
            sentAt := some 400, reminded15At := none, reminded30At := none,
            resolvedAt := none, actionTaken := none })] =
      .ok ([({ uid := "u1", date := "2024-06-01", slotLabel := "wake" },
             { notificationType := "wake", scheduledUtc := 420,
               status := .pending, sentAt := some 400, reminded15At := none,
               reminded30At := none, resolvedAt := none,
               actionTaken := none })], 1) := by
  decide

lemma containsKey_map_guard (k k' : Key) (f : Rec → Rec) :
    ∀ store : Store,
      containsKey k'
          (store.map (fun p => if p.1 = k then (p.1, f p.2) else p)) =
        containsKey k' store := by
  intro store
  induction store with
  | nil => rfl
  | cons hd tl ih =>
    by_cases h : hd.1 = k
    · simp only [List.map_cons, if_pos h, containsKey, List.any_cons] at ih ⊢
      rw [ih]
    · simp only [List.map_cons, if_neg h, containsKey, List.any_cons] at ih ⊢
      rw [ih]

lemma containsKey_append (k : Key) (s t : Store) :
    containsKey k (s ++ t) = (containsKey k s || containsKey k t) := by
  unfold containsKey
  exact List.any_append

lemma containsKey_upsert_self (k : Key) (nt : String) (sc : Int) (st : Status)
    (kw : StampKW) (store : Store) :
    containsKey k (upsertWrite k nt sc st kw store) = true := by
  unfold upsertWrite
  by_cases hc : containsKey k store
  · rw [if_pos hc, containsKey_map_guard]
    exact hc
  · rw [if_neg hc, containsKey_append]
    simp [containsKey]

lemma containsKey_upsert_mono (k k' : Key) (nt : String) (sc : Int)
    (st : Status) (kw : StampKW) (store : Store)
    (h : containsKey k' store = true) :
    containsKey k' (upsertWrite k nt sc st kw store) = true := by
  unfold upsertWrite
  by_cases hc : containsKey k store
  · rw [if_pos hc, containsKey_map_guard]
    exact h
  · rw [if_neg hc, containsKey_append, h]
    rfl

lemma length_upsert_of_contains (k : Key) (nt : String) (sc : Int)
    (st : Status) (kw : StampKW) (store : Store)
    (hc : containsKey k store = true) :
    (upsertWrite k nt sc st kw store).length = store.length := by
  unfold upsertWrite
  rw [if_pos hc, List.length_map]

lemma findRec_upsert_existing (k : Key) (nt : String) (sc : Int) (st : Status)
    (kw : StampKW) (store : Store) (r : Rec) (h : findRec k store = some r) :
    findRec k (upsertWrite k nt sc st kw store) =
      some (applySet nt sc st kw r) := by
  have hc : containsKey k store = true := by
    rw [← findRec_isSome_eq_containsKey, h]
    rfl
  unfold upsertWrite
  rw [if_pos hc, findRec_map_guard k (applySet nt sc st kw) store, h]
  rfl

lemma containsKey_seedUserWrites (uid d : String) :
    ∀ (slots : List Slot) (store : Store) (k' : Key),
      containsKey k' store = true →
      containsKey k' (seedUserWrites uid d slots store) = true := by
  intro slots
  induction slots with
  | nil => exact fun store k' h => h
  | cons hd tl ih =>
    intro store k' h
    exact ih _ k' (containsKey_upsert_mono _ k' _ _ _ _ store h)

lemma seedUserWrites_seeds_self (uid d : String) :
    ∀ (slots : List Slot) (store : Store) (s : Slot), s ∈ slots →
      containsKey { uid := uid, date := d, slotLabel := s.slotLabel }
        (seedUserWrites uid d slots store) = true := by
  intro slots
  induction slots with
  | nil => intro store s h; cases h
  | cons hd tl ih =>
    intro store s hmem
    rcases List.mem_cons.1 hmem with h | h
    · subst h
      exact containsKey_seedUserWrites uid d tl _ _
        (containsKey_upsert_self _ _ _ _ _ store)
    · exact ih _ s h

lemma length_seedUserWrites (uid d : String) :
    ∀ (slots : List Slot) (store : Store),
      (∀ s ∈ slots,
        containsKey { uid := uid, date := d, slotLabel := s.slotLabel } store = true) →
      (seedUserWrites uid d slots store).length = store.length := by
  intro slots
  induction slots with
  | nil => exact fun store _ => rfl
  | cons hd tl ih =>
    intro store h
    have hhd := h hd (List.mem_cons_self _ _)
    have htl : ∀ s ∈ tl,
        containsKey { uid := uid, date := d, slotLabel := s.slotLabel }
          (upsertWrite { uid := uid, date := d, slotLabel := hd.slotLabel }
            hd.notificationType hd.scheduledUtc .pending .noStamp store) = true :=
      fun s hs => containsKey_upsert_mono _ _ _ _ _ _ store (h s (List.mem_cons_of_mem _ hs))
    calc (seedUserWrites uid d (hd :: tl) store).length
        = (seedUserWrites uid d tl
            (upsertWrite { uid := uid, date := d, slotLabel := hd.slotLabel }
              hd.notificationType hd.scheduledUtc .pending .noStamp store)).length := rfl
      _ = (upsertWrite { uid := uid, date := d, slotLabel := hd.slotLabel }
            hd.notificationType hd.scheduledUtc .pending .noStamp store).length :=
          ih _ htl
      _ = store.length := length_upsert_of_contains _ _ _ _ _ store hhd

lemma seedLoop_containsKey (tzdb : String → Option Int) (d : String)
    (dv now : Int) :
    ∀ (users : List (String × NotificationPrefs)) (store : Store) (n : Nat)
      (st' : Store) (n' : Nat) (k' : Key),
      containsKey k' store = true →
      seedLoop tzdb d dv now users store n = .ok (st', n') →
      containsKey k' st' = true := by
  intro users
  induction users with
  | nil =>
    intro store n st' n' k' h hloop
    simp only [seedLoop] at hloop
    cases hloop
    exact h
  | cons hd rest ih =>
    obtain ⟨uid, prefs⟩ := hd
    intro store n st' n' k' h hloop
    simp only [seedLoop] at hloop
    cases hb : _build_schedule tzdb prefs dv true now with
    | error e =>
      rw [hb] at hloop
      cases hloop
    | ok slots =>
      rw [hb] at hloop
      simp only [seedUserSlots_eq] at hloop
      exact ih _ _ _ _ k' (containsKey_seedUserWrites uid d slots store k' h) hloop

lemma seedLoop_seeds (tzdb : String → Option Int) (d : String) (dv now : Int) :
    ∀ (users : List (String × NotificationPrefs)) (store : Store) (n : Nat)
      (st' : Store) (n' : Nat),
      seedLoop tzdb d dv now users store n = .ok (st', n') →
      ∀ u ∈ users, ∀ slots, _build_schedule tzdb u.2 dv true now = .ok slots →
        ∀ s ∈ slots,
          containsKey { uid := u.1, date := d, slotLabel := s.slotLabel } st' = true := by
  intro users
  induction users with
  | nil =>
    intro store n st' n' _ u hu
    cases hu
  | cons hd rest ih =>
    obtain ⟨uid, prefs⟩ := hd
    intro store n st' n' hloop u hu slots hb s hs
    simp only [seedLoop] at hloop
    cases hb0 : _build_schedule tzdb prefs dv true now with
    | error e =>
      rw [hb0] at hloop
      cases hloop
    | ok slots0 =>
      rw [hb0] at hloop
      simp only [seedUserSlots_eq] at hloop
      rcases List.mem_cons.1 hu with h | h
      · subst h
        rw [hb0] at hb
        cases hb
        exact seedLoop_containsKey tzdb d dv now rest _ _ _ _ _
          (seedUserWrites_seeds_self uid d slots store s hs) hloop
      · exact ih _ _ _ _ hloop u h slots hb s hs

lemma seedLoop_length (tzdb : String → Option Int) (d : String) (dv now : Int) :
    ∀ (users : List (String × NotificationPrefs)) (store : Store) (n : Nat)
      (st' : Store) (n' : Nat),
      (∀ u ∈ users, ∀ slots, _build_schedule tzdb u.2 dv true now = .ok slots →
        ∀ s ∈ slots,
          containsKey { uid := u.1, date := d, slotLabel := s.slotLabel } store = true) →
      seedLoop tzdb d dv now users store n = .ok (st', n') →
      st'.length = store.length := by
  intro users
  induction users with
  | nil =>
    intro store n st' n' _ hloop
    simp only [seedLoop] at hloop
    cases hloop
    rfl
  | cons hd rest ih =>
    obtain ⟨uid, prefs⟩ := hd
    intro store n st' n' h hloop
    simp only [seedLoop] at hloop
    cases hb : _build_schedule tzdb prefs dv true now with
    | error e =>
      rw [hb] at hloop
      cases hloop
    | ok slots =>
      rw [hb] at hloop
      simp only [seedUserSlots_eq] at hloop
      have hhead : ∀ s ∈ slots,
          containsKey { uid := uid, date := d, slotLabel := s.slotLabel } store = true :=
        h (uid, prefs) (List.mem_cons_self _ _) slots hb
      have hrest : ∀ u ∈ rest, ∀ slots2,
          _build_schedule tzdb u.2 dv true now = .ok slots2 →
          ∀ s ∈ slots2,
            containsKey { uid := u.1, date := d, slotLabel := s.slotLabel }
              (seedUserWrites uid d slots store) = true :=
        fun u hu slots2 hb2 s hs =>
          containsKey_seedUserWrites uid d slots store _
            (h u (List.mem_cons_of_mem _ hu) slots2 hb2 s hs)
      calc st'.length
          = (seedUserWrites uid d slots store).length := ih _ _ _ _ hrest hloop
        _ = store.length := length_seedUserWrites uid d slots store hhead

lemma seedLoop_count_indep (tzdb : String → Option Int) (d : String)
    (dv now : Int) :
    ∀ (users : List (String × NotificationPrefs)) (store₁ : Store) (n : Nat)
      (st1 : Store) (n1 : Nat),
      seedLoop tzdb d dv now users store₁ n = .ok (st1, n1) →
      ∀ store₂ : Store, ∃ st2 : Store,
        seedLoop tzdb d dv now users store₂ n = .ok (st2, n1) := by
  intro users
  induction users with
  | nil =>
    intro store₁ n st1 n1 hloop store₂
    simp only [seedLoop] at hloop ⊢
    cases hloop
    exact ⟨store₂, rfl⟩
  | cons hd rest ih =>
    obtain ⟨uid, prefs⟩ := hd
    intro store₁ n st1 n1 hloop store₂
    simp only [seedLoop] at hloop ⊢
    cases hb : _build_schedule tzdb prefs dv true now with
    | error e =>
      rw [hb] at hloop
      cases hloop
    | ok slots =>
      rw [hb] at hloop
      simp only [seedUserSlots_eq] at hloop
      simp only [seedUserSlots_eq]
      exact ih _ _ _ _ hloop (seedUserWrites uid d slots store₂)

/-- C1 amended: re-running the Seeding Job for the same date (same users,
preferences, clock) succeeds with the same seeded count and leaves the
total record count unchanged (no duplicates); for a record that already
exists, the seeding upsert never touches the stage timestamps,
`resolved_at` or `action_taken` — but it unconditionally resets `status`
to `pending` along with kind and instant, so a record already advanced
past `pending` whose freshly computed slot instant is not yet past is
downgraded back to `pending` (see the counterexample); slots whose instant
has passed are dropped by `skip_past` and their records left untouched. -/
theorem seed_amended_idempotent (tzdb : String → Option Int)
    (users : List (String × NotificationPrefs)) (dateStr : String)
    (dateVal now : Int) (store st1 : Store) (n1 : Nat)
    (h1 : seed_daily_states tzdb users dateStr dateVal now store = .ok (st1, n1)) :
    (∃ st2 : Store,
      seed_daily_states tzdb users dateStr dateVal now st1 = .ok (st2, n1) ∧
      st2.length = st1.length) ∧
    (∀ (st : Store) (k : Key) (r : Rec) (nt : String) (sc : Int),
      findRec k st = some r →
      ∃ st' : Store,
        upsert_state k nt sc .pending .noStamp st = .ok st' ∧
        findRec k st' =
          some { r with notificationType := nt, scheduledUtc := sc,
                        status := .pending }) := by
  constructor
  · unfold seed_daily_states at h1 ⊢
    obtain ⟨st2, h2⟩ := seedLoop_count_indep tzdb dateStr dateVal now users
      store 0 st1 n1 h1 st1
    refine ⟨st2, h2, ?_⟩
    exact seedLoop_length tzdb dateStr dateVal now users st1 0 st2 n1
      (seedLoop_seeds tzdb dateStr dateVal now users store 0 st1 n1 h1) h2
  · intro st k r nt sc h
    refine ⟨upsertWrite k nt sc .pending .noStamp st,
      upsert_state_noStamp k nt sc .pending st, ?_⟩
    rw [findRec_upsert_existing k nt sc .pending .noStamp st r h]
    rfl

/-- Witness for the C1 amended theorem: seeding one user into an empty
store yields one record; seeding again returns the same count and leaves
the record count at one. -/
theorem seed_amended_idempotent_witness :
    ∃ st2 : Store,
      seed_daily_states tzdbTest [("u1", prefsWakeOnly)] "2024-06-01" 0 0
          [({ uid := "u1", date := "2024-06-01", slotLabel := "wake" },
            { notificationType := "wake", scheduledUtc := 420,
              status := .pending, sentAt := none, reminded15At := none,
              reminded30At := none, resolvedAt := none,
              actionTaken := none })] =
        .ok (st2, 1) ∧
      st2.length = 1 :=
  (seed_amended_idempotent tzdbTest [("u1", prefsWakeOnly)] "2024-06-01" 0 0
    [] [({ uid := "u1", date := "2024-06-01", slotLabel := "wake" },
         { notificationType := "wake", scheduledUtc := 420,
           status := .pending, sentAt := none, reminded15At := none,
           reminded30At := none, resolvedAt := none, actionTaken := none })]
    1 (by decide)).1
